import Mathlib

/-!
Verification of the retry/session subsystem of `a10_saltstack/a10_client/axapi_http.py`.

The file gives a shallow embedding of the module in Lean 4 and proves the spec
claims about it.  The source is Python 2 code (it uses `xrange`, `iteritems`
and the Python 2 `json.dumps(..., encoding=...)` keyword); the embedding
therefore follows Python 2 semantics, in particular the variable bound by an
`except ... as e` clause stays in scope after the `try` statement, so the
`raise e` after the retry loop re-raises the exception of the final failed
attempt.

Network effects are modelled by oracles: the transport oracle maps the index
of an attempt to the outcome of the underlying `requests.request` call, and
the session oracle maps the index of an auth (resp. logoff) POST to its
outcome.  Exceptions are modelled with `Except`; the `request` embedding is
instrumented with the number of attempts actually issued, so claims about
retry counts are statable.
-/

set_option linter.unusedVariables false

namespace Axapi

/-- Decoded JSON values, as produced by `z.json()`.  Objects are association
lists with the unique-key semantics of Python dicts. -/
inductive JVal where
  | jnull
  | jstr (s : String)
  | jnum (n : Int)
  | jbool (b : Bool)
  | jobj (fields : List (String × JVal))
  | jarr (elems : List JVal)

/-- Python `r[k]` on a dict, returning `none` where Python would raise
`KeyError`. -/
def JVal.lookup (v : JVal) (k : String) : Option JVal :=
  match v with
  | .jobj fields => List.lookup k fields
  | _ => none

/-- Python `k in r` for a dict value (false on non-dicts, where the code under
verification only applies it to decoded objects). -/
def JVal.hasKey (v : JVal) (k : String) : Bool :=
  (v.lookup k).isSome

/-- Python `v == s` against a string literal: true exactly when `v` is that
string. -/
def JVal.isStr (v : JVal) (s : String) : Bool :=
  match v with
  | .jstr t => t == s
  | _ => false

/-- Python `str()` of a decoded value, used by `Session.authenticate` on the
signature field.  Container cases are rendered approximately; no claim
depends on their exact text. -/
def pyStr (v : JVal) : String :=
  match v with
  | .jnull => "None"
  | .jstr s => s
  | .jnum n => toString n
  | .jbool b => if b then "True" else "False"
  | .jobj _ => "<dict>"
  | .jarr _ => "<list>"

/-- Does the second character list start with the first? -/
def charsStartWith : List Char → List Char → Bool
  | [], _ => true
  | _ :: _, [] => false
  | a :: as, b :: bs => a == b && charsStartWith as bs

/-- Does some suffix of the second list start with the first? -/
def charsContain (needle : List Char) : List Char → Bool
  | [] => charsStartWith needle []
  | b :: bs => charsStartWith needle (b :: bs) || charsContain needle bs

/-- Python substring test `needle in hay`. -/
def strContains (hay needle : String) : Bool :=
  charsContain needle.data hay.data

/-- A transport-level exception of the classes caught by the retry loop,
`socket.error` or `requests.exceptions.ConnectionError`: its (optional)
`errno` attribute and its `str()` form. -/
structure ConnErr where
  errnoVal : Option Int
  msg : String

/-- An HTTP response as the code observes it: the status code, and the decoded
JSON body when `z.json()` succeeds (`none` models a body on which `z.json()`
raises `ValueError`). -/
structure HttpResponse where
  status_code : Nat
  body : Option JVal

/-- Outcome of one underlying `requests.request` call: a response, a caught
connection-class exception, or any other exception (which the `except` clause
does not catch). -/
inductive AttemptResult where
  | ok (resp : HttpResponse)
  | connErr (e : ConnErr)
  | otherErr (msg : String)

/-- Exceptions that `HttpClient.request` can raise. -/
inductive ReqError where
  | invalidArgument (msg : String)
  | transportError (e : ConnErr)
  | otherTransport (msg : String)
  | jsonDecodeError
  | apiError (body : JVal) (method : String) (path : String)
  | authError (body : JVal) (method : String) (path : String)

/-- Normal return values of `HttpClient.request`: the Python `None` returned
on a 204 status, or a decoded JSON value (the empty object for the benign
non-JSON-on-200 case). -/
inductive ReqValue where
  | noContent
  | value (j : JVal)

/-- Result of a `request` call, instrumented with the number of underlying
`requests.request` attempts that were issued. -/
structure ReqOutcome where
  result : Except ReqError ReqValue
  attempts : Nat

/-- Subset of the Python `errno.errorcode` table (errno number to symbolic
name) for the standard POSIX codes; the claims quantify over the configured
retry list, so none depends on the extent of this table. -/
def errorcode (n : Int) : Option String :=
  if n = 4 then some "EINTR"
  else if n = 9 then some "EBADF"
  else if n = 11 then some "EAGAIN"
  else if n = 32 then some "EPIPE"
  else if n = 104 then some "ECONNRESET"
  else if n = 110 then some "ETIMEDOUT"
  else if n = 111 then some "ECONNREFUSED"
  else if n = 113 then some "EHOSTUNREACH"
  else none

/-- State of an `HttpClient` after `__init__` (lines 49-63). -/
structure HttpClient where
  url_base : String
  retry_errnos : List Int
  retry_err_strings : List String

/-- The `HttpClient.__init__` constructor (lines 49-63): default port from the
protocol, `retry_errnos` from the optional `retry_errno_list`, and
`retry_err_strings` as the literal `BadStatusLine` marker followed by the
bracketed errno renderings and the symbolic errno names. -/
def mkHttpClient (host : String) (port : Option Nat) (protocol : String)
    (retry_errno_list : Option (List Int)) : HttpClient :=
  let port' : Nat := match port with
    | some p => p
    | none => if protocol == "http" then 80 else 443
  let retry_errnos : List Int := match retry_errno_list with
    | some l => [] ++ l
    | none => []
  { url_base := protocol ++ "://" ++ host ++ ":" ++ toString port'
    retry_errnos := retry_errnos
    retry_err_strings :=
      ["BadStatusLine"]
        ++ retry_errnos.map (fun n => "[Errno " ++ toString n ++ "]")
        ++ retry_errnos.filterMap errorcode }

/-- The retry classifier of the `except` clause (lines 121-122):
`e.errno in self.retry_errnos or any(s in str(e) for s in self.retry_err_strings)`. -/
def HttpClient.retryableErr (c : HttpClient) (e : ConnErr) : Bool :=
  (match e.errnoVal with
    | some n => c.retry_errnos.contains n
    | none => false)
  || c.retry_err_strings.any (fun s => strContains e.msg s)

/-- Result of the retry loop: a response that broke out of the loop, or an
exception propagating from it, in both cases with the number of attempts
issued. -/
inductive LoopOutcome where
  | success (resp : HttpResponse) (attempts : Nat)
  | raised (err : ReqError) (attempts : Nat)

/-- The `for i in xrange(0, 1500)` retry loop (lines 106-133), as a
fuel-indexed recursion: `i` is the index of the current attempt and `fuel`
the number of loop iterations still available after it.  On a retryable
connection error with fuel left the loop continues; with no fuel left the
loop exhausts and the code after it re-raises the exception of this final
attempt (Python 2 keeps the `except`-bound variable in scope, and `last_e`
is not `None` exactly when the final iteration failed retryably).  A
non-retryable connection error is re-raised at once, and any other exception
is not caught at all. -/
def retryLoop (c : HttpClient) (o : Nat → AttemptResult) : Nat → Nat → LoopOutcome
  | i, 0 =>
    match o i with
    | .ok resp => .success resp (i + 1)
    | .connErr e => .raised (.transportError e) (i + 1)
    | .otherErr m => .raised (.otherTransport m) (i + 1)
  | i, fuel + 1 =>
    match o i with
    | .ok resp => .success resp (i + 1)
    | .connErr e =>
        if c.retryableErr e then retryLoop c o (i + 1) fuel
        else .raised (.transportError e) (i + 1)
    | .otherErr m => .raised (.otherTransport m) (i + 1)

/-- A Python dict value, with string keys. -/
abbrev PyDict := List (String × JVal)

/-- Python `d[k] = v`: replace the binding in place when the key exists,
append otherwise. -/
def dictSet (d : PyDict) (k : String) (v : JVal) : PyDict :=
  if d.any (fun kv => kv.1 == k) then
    d.map (fun kv => if kv.1 == k then (k, v) else kv)
  else d ++ [(k, v)]

/-- Python `d1.update(d2)` as a value: each binding of `d2` written into `d1`. -/
def dictUpdate (d1 d2 : PyDict) : PyDict :=
  d2.foldl (fun d kv => dictSet d kv.1 kv.2) d1

/-- Python `d.pop(k, None)`: the dict without the binding for `k`. -/
def dictPop (d : PyDict) (k : String) : PyDict :=
  d.filter (fun kv => kv.1 != k)

/-- Modelled from the spec: `merge_dicts` lives in the external
`acos_client.v21.axapi_http` module, which is not under `src/`.  The spec
invariant says the transport works on defensive copies of caller mappings,
so it is modelled as a pure right-biased merge that allocates a fresh
mapping and mutates neither argument. -/
def mergeDicts (d1 d2 : PyDict) : PyDict :=
  dictUpdate d1 d2

/-- The `k.replace('_', '-')` formatting applied to `axapi_args` keys
(lines 73-74). -/
def formatAxapiArgs (aa : PyDict) : PyDict :=
  aa.map (fun kv => (kv.1.replace "_" "-", kv.2))

/-- The post-decode inspection of a successfully decoded body
(lines 149-157): a nested `response.status == "fail"` raises the structured
API error via the external `acos_responses.raise_axapi_ex(r, method, api_url)`
(modelled from the spec as an `ApiError` carrying body, method and path);
otherwise an `authorizationschema` key raises the structured auth error;
otherwise the decoded body is returned. -/
def inspectBody (r : JVal) (method api_url : String) : Except ReqError ReqValue :=
  if r.hasKey "response" && ((r.lookup "response").getD .jnull).hasKey "status"
      && ((((r.lookup "response").getD .jnull).lookup "status").getD .jnull).isStr "fail" then
    .error (.apiError r method api_url)
  else if r.hasKey "authorizationschema" then
    .error (.authError r method api_url)
  else .ok (.value r)

/-- The `HttpClient.request` method (lines 65-157), with the network
abstracted by the attempt oracle `o`.  In order: merge of `axapi_args` into
the parameters (affecting only the payload), the file-argument validation,
the retry loop, and response normalization (204 first, then JSON decoding
with the benign 200 case, then body inspection).  The header overlay and the
payload serialization have no observable effect at this level; their dict
mutations are modelled heap-instrumented in `requestDictOps` below. -/
def HttpClient.request (c : HttpClient) (method api_url : String)
    (params : PyDict) (headers : Option PyDict)
    (file_name file_content : Option String) (axapi_args : Option PyDict)
    (o : Nat → AttemptResult) : ReqOutcome :=
  let params' : PyDict := match axapi_args with
    | some aa => mergeDicts params (formatAxapiArgs aa)
    | none => params
  if (file_name.isNone && file_content.isSome)
      || (file_name.isSome && file_content.isNone) then
    ⟨.error (.invalidArgument "file_name and file_content must both be populated if one is"), 0⟩
  else
    let payload : Option PyDict := if !params'.isEmpty then some params' else none
    match retryLoop c o 0 1499 with
    | .raised err n => ⟨.error err, n⟩
    | .success resp n =>
      if resp.status_code == 204 then ⟨.ok .noContent, n⟩
      else
        match resp.body with
        | none =>
          if resp.status_code == 200 then ⟨.ok (.value (.jobj [])), n⟩
          else ⟨.error .jsonDecodeError, n⟩
        | some r => ⟨inspectBody r method api_url, n⟩

/-- A heap of Python dict objects; a reference is an index into it.  This is
the instrumentation used to state that `request` never mutates
caller-supplied mappings. -/
abbrev Heap := List PyDict

/-- Allocate a fresh dict object; returns the heap and the new reference. -/
def heapAlloc (h : Heap) (d : PyDict) : Heap × Nat :=
  (h ++ [d], h.length)

/-- Read the dict object behind a reference. -/
def heapRead (h : Heap) (r : Nat) : PyDict :=
  (h[r]?).getD []

/-- Overwrite the dict object behind a reference (an in-place mutation such
as `update` or `pop`). -/
def heapWrite (h : Heap) (r : Nat) (d : PyDict) : Heap :=
  h.set r d

/-- The `acos_client.VERSION` constant of the external dependency; its value
is irrelevant to every claim. -/
def acosClientVersion : String := "VERSION"

/-- The class-level default headers `HttpClient.HEADERS` (lines 44-47). -/
def HEADERS : PyDict :=
  [("Content-type", .jstr "application/json"),
   ("User-Agent", .jstr ("ACOS-Client-AGENT-" ++ acosClientVersion))]

/-- The dict manipulations `request` performs after the file-argument
validation passed (lines 82-104), instrumented on the dict heap, in source
order: the `HEADERS.copy()` allocation, the in-place `hdrs.update(headers)`
when the caller headers are truthy, the `params.copy()` allocation when the
(possibly merged) parameters at `pRef` are truthy, and the in-place
`hdrs.pop` of both content-type spellings when a file is uploaded. -/
def requestHeaderOps (h1 : Heap) (pRef : Nat) (headersRef : Option Nat)
    (file_name : Option String) : Heap :=
  let step2 := heapAlloc h1 HEADERS
  let h2 := step2.1
  let hdrsRef := step2.2
  let h3 : Heap :=
    match headersRef with
    | some hr =>
        if !(heapRead h2 hr).isEmpty then
          heapWrite h2 hdrsRef (dictUpdate (heapRead h2 hdrsRef) (heapRead h2 hr))
        else h2
    | none => h2
  let h4 : Heap :=
    if !(heapRead h3 pRef).isEmpty then (heapAlloc h3 (heapRead h3 pRef)).1 else h3
  match file_name with
  | some _ =>
      heapWrite h4 hdrsRef
        (dictPop (dictPop (heapRead h4 hdrsRef) "Content-type") "Content-Type")
  | none => h4

/-- The dict manipulations `request` performs (lines 65-104), instrumented on
the dict heap, in source order: the `merge_dicts` of `axapi_args` into the
parameters (allocating a fresh mapping and rebinding the local `params` to
it, see `mergeDicts`), then the file-argument validation (on failure the
function raises with the heap as it stands), then the header and payload
operations of `requestHeaderOps`. -/
def requestDictOps (h0 : Heap) (paramsRef : Nat) (headersRef : Option Nat)
    (axapiRef : Option Nat) (file_name file_content : Option String) : Heap :=
  let step1 : Heap × Nat :=
    match axapiRef with
    | some aRef =>
        heapAlloc h0 (mergeDicts (heapRead h0 paramsRef) (formatAxapiArgs (heapRead h0 aRef)))
    | none => (h0, paramsRef)
  if (file_name.isNone && file_content.isSome)
      || (file_name.isSome && file_content.isNone) then
    step1.1
  else
    requestHeaderOps step1.1 step1.2 headersRef file_name

/-- Exceptions arising during session operations: an error propagating from
an underlying transport call, or a Python `KeyError`-style failure while
extracting the signature. -/
inductive SessErr where
  | transport (msg : String)
  | keyError (k : String)

/-- The mutable state of a `Session` object: its cached token
(`self.session_id`, `None` after `__init__`). -/
structure SessionState where
  session_id : Option String

/-- Counters instrumenting how many auth POSTs and logoff POSTs the session
has issued through the transport. -/
structure SessCtrs where
  nauth : Nat
  nlogoff : Nat

/-- Oracle for the network as seen by `Session`: the outcome of the n-th
`POST /axapi/v3/auth` and of the n-th `POST /axapi/v3/logoff`. -/
structure AuthOracle where
  post : Nat → Except SessErr JVal
  logoff : Nat → Except SessErr JVal

/-- The `Session.close` method (lines 207-222).  The best-effort
`client.partition.active()` call swallows every exception and does not touch
the session state, so it is not modelled further.  With no cached token the
method returns `None` at once; otherwise it issues the logoff POST and, in a
`finally` block, clears the token whether or not that POST raised. -/
def Session.close (o : AuthOracle) (st : SessionState) (k : SessCtrs) :
    Except SessErr (Option JVal) × SessionState × SessCtrs :=
  match st.session_id with
  | none => (.ok none, st, k)
  | some _ =>
      match o.logoff k.nlogoff with
      | .ok r => (.ok (some r), ⟨none⟩, ⟨k.nauth, k.nlogoff + 1⟩)
      | .error e => (.error e, ⟨none⟩, ⟨k.nauth, k.nlogoff + 1⟩)

/-- The tail of `Session.authenticate` (lines 199-205): the auth POST itself
and the processing of its response.  A response carrying `authresponse`
caches `str(...)` of its `signature` field; a response carrying
`authresponse` without a `signature` raises (the Python subscript fails)
leaving the token as it was; a response without `authresponse` silently sets
the token to absent. -/
def Session.authPost (o : AuthOracle) (st : SessionState) (k : SessCtrs) :
    Except SessErr JVal × SessionState × SessCtrs :=
  match o.post k.nauth with
  | .error e => (.error e, st, ⟨k.nauth + 1, k.nlogoff⟩)
  | .ok r =>
      match r.lookup "authresponse" with
      | some ar =>
          match ar.lookup "signature" with
          | some sig => (.ok r, ⟨some (pyStr sig)⟩, ⟨k.nauth + 1, k.nlogoff⟩)
          | none => (.error (.keyError "signature"), st, ⟨k.nauth + 1, k.nlogoff⟩)
      | none => (.ok r, ⟨none⟩, ⟨k.nauth + 1, k.nlogoff⟩)

/-- The `Session.authenticate` method (lines 187-205): with a cached token it
first calls `close` (whose exceptions propagate and abort the login), then
issues the auth POST. -/
def Session.authenticate (o : AuthOracle) (st : SessionState) (k : SessCtrs) :
    Except SessErr JVal × SessionState × SessCtrs :=
  match st.session_id with
  | some _ =>
      match Session.close o st k with
      | (.error e, st', k') => (.error e, st', k')
      | (.ok _, st', k') => Session.authPost o st' k'
  | none => Session.authPost o st k

/-- The `Session.id` property (lines 181-185): authenticate when no token is
cached, then return whatever token is now cached (possibly still absent). -/
def Session.id (o : AuthOracle) (st : SessionState) (k : SessCtrs) :
    Except SessErr (Option String) × SessionState × SessCtrs :=
  match st.session_id with
  | some _ => (.ok st.session_id, st, k)
  | none =>
      match Session.authenticate o st k with
      | (.error e, st', k') => (.error e, st', k')
      | (.ok _, st', k') => (.ok st'.session_id, st', k')

/-- The state of a `Session` right after `__init__` (line 179): no cached
token. -/
def Session.initState : SessionState := ⟨none⟩

/-- Number of attempts recorded in a loop outcome. -/
def LoopOutcome.attempts : LoopOutcome → Nat
  | .success _ n => n
  | .raised _ n => n

/-- Concrete client used to instantiate the transport theorems: retry on
errno 104 (ECONNRESET). -/
def demoClient : HttpClient := mkHttpClient "host" none "https" (some [104])

/-- A retryable connection error for `demoClient`. -/
def demoConnErr : ConnErr := ⟨some 104, "connection reset by peer"⟩

/-- A connection error `demoClient` does not retry: no errno, empty text. -/
def demoBadErr : ConnErr := ⟨none, ""⟩

/-- An oracle on which every attempt fails with the retryable error. -/
def demoFailOracle : Nat → AttemptResult := fun _ => .connErr demoConnErr

/-- An oracle whose first attempt fails with the non-retryable error. -/
def demoNoRetryOracle : Nat → AttemptResult := fun _ => .connErr demoBadErr

/-- An oracle on which every attempt succeeds with an empty 200 JSON body. -/
def demoOkOracle : Nat → AttemptResult := fun _ => .ok ⟨200, some (.jobj [])⟩

end Axapi

namespace Axapi

/-- If every attempt from `i` through `i + fuel` fails with a retryable
connection error, the loop exhausts and re-raises the error of the final
attempt, having issued `i + fuel + 1` attempts. -/
theorem retryLoop_exhaust (c : HttpClient) (o : Nat → AttemptResult) (errs : Nat → ConnErr) :
    ∀ (fuel i : Nat),
      (∀ j, j ≤ fuel → o (i + j) = .connErr (errs (i + j)) ∧ c.retryableErr (errs (i + j)) = true) →
      retryLoop c o i fuel = .raised (.transportError (errs (i + fuel))) (i + fuel + 1) := by
  intro fuel
  induction fuel with
  | zero =>
    intro i h
    have h0 := h 0 (Nat.le_refl 0)
    simp only [Nat.add_zero] at h0 ⊢
    simp [retryLoop, h0.1]
  | succ f ih =>
    intro i h
    have h0 := h 0 (Nat.zero_le _)
    simp only [Nat.add_zero] at h0
    have hrec := ih (i + 1) (fun j hj => by
      have := h (j + 1) (Nat.succ_le_succ hj)
      rwa [show i + (j + 1) = i + 1 + j by omega] at this)
    simp only [retryLoop, h0.1, h0.2, if_true]
    rw [hrec, show i + 1 + f = i + (f + 1) by omega, show i + (f + 1) + 1 = i + (f + 1) + 1 by omega]

/-- The loop starting at attempt `i` issues at least one attempt. -/
theorem retryLoop_attempts_ge (c : HttpClient) (o : Nat → AttemptResult) :
    ∀ (fuel i : Nat), i + 1 ≤ (retryLoop c o i fuel).attempts := by
  intro fuel
  induction fuel with
  | zero =>
    intro i
    unfold retryLoop
    cases o i <;> simp [LoopOutcome.attempts]
  | succ f ih =>
    intro i
    unfold retryLoop
    cases h : o i with
    | ok resp => simp [LoopOutcome.attempts]
    | connErr e =>
      by_cases hr : c.retryableErr e
      · simp only [hr, if_true]
        exact Nat.le_of_succ_le (ih (i + 1))
      · simp [hr, LoopOutcome.attempts]
    | otherErr m => simp [LoopOutcome.attempts]

/-- C1: for every request whose every attempt fails with a retryable
connection error, the retry loop issues exactly 1500 attempts and then
raises the last observed transport error, namely the error of the final
(1500th, index 1499) failed attempt. -/
theorem c1_retry_cap_raises_last (c : HttpClient) (method api_url : String)
    (params : PyDict) (headers : Option PyDict) (axapi_args : Option PyDict)
    (o : Nat → AttemptResult) (errs : Nat → ConnErr)
    (hfail : ∀ i, i < 1500 → o i = .connErr (errs i) ∧ c.retryableErr (errs i) = true) :
    c.request method api_url params headers none none axapi_args o =
      ⟨.error (.transportError (errs 1499)), 1500⟩ := by
  have hloop := retryLoop_exhaust c o errs 1499 0 (fun j hj => by
    rw [Nat.zero_add]
    exact hfail j (by omega))
  rw [Nat.zero_add] at hloop
  unfold HttpClient.request
  simp [hloop]

/-- Witness for C1 at a concrete client and oracle: every attempt fails with
ECONNRESET, and the request reports that error after 1500 attempts. -/
theorem c1_retry_cap_witness :
    (∀ i, i < 1500 →
      demoFailOracle i = .connErr demoConnErr ∧ demoClient.retryableErr demoConnErr = true) ∧
    demoClient.request "GET" "/axapi/v3/slb" [] none none none none demoFailOracle =
      ⟨.error (.transportError demoConnErr), 1500⟩ := by
  have hr : demoClient.retryableErr demoConnErr = true := by decide
  refine ⟨fun i _ => ⟨rfl, hr⟩, ?_⟩
  exact c1_retry_cap_raises_last demoClient "GET" "/axapi/v3/slb" [] none none demoFailOracle
    (fun _ => demoConnErr) (fun i _ => ⟨rfl, hr⟩)

/-- The retry classifier holds exactly when the errno lies in the configured
retry set or the stringified error contains one of the configured retry
markers. -/
theorem retryableErr_iff (c : HttpClient) (e : ConnErr) :
    c.retryableErr e = true ↔
      ((∃ n, e.errnoVal = some n ∧ n ∈ c.retry_errnos) ∨
        ∃ s ∈ c.retry_err_strings, strContains e.msg s = true) := by
  unfold HttpClient.retryableErr
  cases h : e.errnoVal with
  | none => simp [List.any_eq_true]
  | some n => simp [List.any_eq_true, List.contains, List.elem_iff]

/-- When the file-argument validation passes and the retry loop raises, the
request propagates that error with the loop attempt count. -/
theorem request_loop_raised (c : HttpClient) (method api_url : String)
    (params : PyDict) (headers : Option PyDict) (file_name file_content : Option String)
    (axapi_args : Option PyDict) (o : Nat → AttemptResult)
    (hfile : file_name.isSome = file_content.isSome)
    (err : ReqError) (n : Nat) (h : retryLoop c o 0 1499 = .raised err n) :
    c.request method api_url params headers file_name file_content axapi_args o =
      ⟨.error err, n⟩ := by
  unfold HttpClient.request
  cases file_name <;> cases file_content <;> simp_all

/-- When the file-argument validation passes, the request issues exactly as
many attempts as the retry loop does. -/
theorem request_attempts_loop (c : HttpClient) (method api_url : String)
    (params : PyDict) (headers : Option PyDict) (file_name file_content : Option String)
    (axapi_args : Option PyDict) (o : Nat → AttemptResult)
    (hfile : file_name.isSome = file_content.isSome) :
    (c.request method api_url params headers file_name file_content axapi_args o).attempts
      = (retryLoop c o 0 1499).attempts := by
  unfold HttpClient.request
  have hcond : ((file_name.isNone && file_content.isSome)
      || (file_name.isSome && file_content.isNone)) = false := by
    cases file_name <;> cases file_content <;> simp_all
  simp only [hcond, Bool.false_eq_true, if_false]
  cases hl : retryLoop c o 0 1499 with
  | raised err n => simp [LoopOutcome.attempts]
  | success resp n =>
    simp only [LoopOutcome.attempts]
    split
    · rfl
    · split
      · split <;> rfl
      · rfl

/-- One unrolling of the retry loop when fuel remains. -/
theorem retryLoop_step (c : HttpClient) (o : Nat → AttemptResult) (i fuel : Nat) :
    retryLoop c o i (fuel + 1) =
      match o i with
      | .ok resp => .success resp (i + 1)
      | .connErr e =>
          if c.retryableErr e then retryLoop c o (i + 1) fuel
          else .raised (.transportError e) (i + 1)
      | .otherErr m => .raised (.otherTransport m) (i + 1) := rfl

/-- C2: a failed attempt is retried exactly when it is a connection-class
error whose errno lies in the configured retry set or whose string form
contains one of the configured retry markers (a retried first failure leads
to a second attempt being issued); a connection-class error matching neither
is re-raised after that single attempt, and an error outside the caught
connection classes propagates immediately after that single attempt. -/
theorem c2_retry_classification (c : HttpClient) (method api_url : String)
    (params : PyDict) (headers : Option PyDict) (file_name file_content : Option String)
    (axapi_args : Option PyDict) (o : Nat → AttemptResult)
    (hfile : file_name.isSome = file_content.isSome) :
    (∀ e, o 0 = .connErr e →
      ((∃ n, e.errnoVal = some n ∧ n ∈ c.retry_errnos) ∨
        ∃ s ∈ c.retry_err_strings, strContains e.msg s = true) →
      2 ≤ (c.request method api_url params headers file_name file_content axapi_args o).attempts) ∧
    (∀ e, o 0 = .connErr e →
      ¬((∃ n, e.errnoVal = some n ∧ n ∈ c.retry_errnos) ∨
        ∃ s ∈ c.retry_err_strings, strContains e.msg s = true) →
      c.request method api_url params headers file_name file_content axapi_args o =
        ⟨.error (.transportError e), 1⟩) ∧
    (∀ m, o 0 = .otherErr m →
      c.request method api_url params headers file_name file_content axapi_args o =
        ⟨.error (.otherTransport m), 1⟩) := by
  refine ⟨?_, ?_, ?_⟩
  · intro e he hcond
    have hr : c.retryableErr e = true := (retryableErr_iff c e).mpr hcond
    have hstep : retryLoop c o 0 1499 = retryLoop c o 1 1498 := by
      rw [show (1499 : Nat) = 1498 + 1 from rfl, retryLoop_step]
      simp only [he, hr, if_true]
    rw [request_attempts_loop c method api_url params headers file_name file_content
      axapi_args o hfile, hstep]
    exact retryLoop_attempts_ge c o 1498 1
  · intro e he hcond
    have hr : c.retryableErr e = false := by
      cases hb : c.retryableErr e
      · rfl
      · exact absurd ((retryableErr_iff c e).mp hb) hcond
    have hstep : retryLoop c o 0 1499 = .raised (.transportError e) 1 := by
      rw [show (1499 : Nat) = 1498 + 1 from rfl, retryLoop_step]
      simp only [he, hr, Bool.false_eq_true, if_false]
    exact request_loop_raised c method api_url params headers file_name file_content
      axapi_args o hfile _ _ hstep
  · intro m hm
    have hstep : retryLoop c o 0 1499 = .raised (.otherTransport m) 1 := by
      rw [show (1499 : Nat) = 1498 + 1 from rfl, retryLoop_step]
      simp only [hm]
    exact request_loop_raised c method api_url params headers file_name file_content
      axapi_args o hfile _ _ hstep

/-- Witness for C2 at a concrete client and oracle: the first attempt fails
with a connection error matching neither errno set nor markers, and the
request raises it after exactly one attempt. -/
theorem c2_retry_classification_witness :
    ((none : Option String).isSome = (none : Option String).isSome) ∧
    demoClient.request "GET" "/axapi/v3/slb" [] none none none none demoNoRetryOracle =
      ⟨.error (.transportError demoBadErr), 1⟩ := by
  refine ⟨rfl, ?_⟩
  refine (c2_retry_classification demoClient "GET" "/axapi/v3/slb" [] none none none none
    demoNoRetryOracle rfl).2.1 demoBadErr rfl ?_
  intro hcond
  have hb : demoClient.retryableErr demoBadErr = true := (retryableErr_iff _ _).mpr hcond
  have hf : demoClient.retryableErr demoBadErr = false := by decide
  rw [hf] at hb
  exact Bool.noConfusion hb

/-- When the first attempt succeeds, the loop returns its response having
issued exactly one attempt. -/
theorem retryLoop_first_ok (c : HttpClient) (o : Nat → AttemptResult) (resp : HttpResponse)
    (h : o 0 = .ok resp) : retryLoop c o 0 1499 = .success resp 1 := by
  rw [show (1499 : Nat) = 1498 + 1 from rfl, retryLoop_step]
  simp only [h, Nat.zero_add]

/-- When the file-argument validation passes and the retry loop breaks out
with a response, the request returns the normalization of that response. -/
theorem request_loop_success (c : HttpClient) (method api_url : String)
    (params : PyDict) (headers : Option PyDict) (file_name file_content : Option String)
    (axapi_args : Option PyDict) (o : Nat → AttemptResult)
    (hfile : file_name.isSome = file_content.isSome)
    (resp : HttpResponse) (n : Nat) (h : retryLoop c o 0 1499 = .success resp n) :
    c.request method api_url params headers file_name file_content axapi_args o =
      ⟨if resp.status_code == 204 then .ok .noContent
        else match resp.body with
          | none =>
              if resp.status_code == 200 then .ok (.value (.jobj []))
              else .error .jsonDecodeError
          | some r => inspectBody r method api_url, n⟩ := by
  unfold HttpClient.request
  have hcond : ((file_name.isNone && file_content.isSome)
      || (file_name.isSome && file_content.isNone)) = false := by
    cases file_name <;> cases file_content <;> simp_all
  simp only [hcond, Bool.false_eq_true, if_false]
  rw [h]
  by_cases h204 : (resp.status_code == 204) = true
  · simp [h204]
  · cases hb : resp.body with
    | none =>
      by_cases h200 : (resp.status_code == 200) = true
      · simp [h204, hb, h200]
      · simp [h204, hb, h200]
    | some r => simp [h204, hb]

/-- C5 (amended): response normalization on a completed request, in the
order the code checks it: a 204 status yields the no-content sentinel
(distinct from the empty mapping); a non-JSON body on a 200 status yields
the empty mapping without error; a non-JSON body on a status other than 200
and other than 204 raises the JSON-decode error. -/
theorem c5_response_normalization (c : HttpClient) (method api_url : String)
    (params : PyDict) (headers : Option PyDict) (file_name file_content : Option String)
    (axapi_args : Option PyDict) (o : Nat → AttemptResult) (resp : HttpResponse)
    (hfile : file_name.isSome = file_content.isSome) (hok : o 0 = .ok resp) :
    (resp.status_code = 204 →
      c.request method api_url params headers file_name file_content axapi_args o =
        ⟨.ok .noContent, 1⟩) ∧
    (resp.body = none → resp.status_code = 200 →
      c.request method api_url params headers file_name file_content axapi_args o =
        ⟨.ok (.value (.jobj [])), 1⟩) ∧
    (resp.body = none → resp.status_code ≠ 200 → resp.status_code ≠ 204 →
      c.request method api_url params headers file_name file_content axapi_args o =
        ⟨.error .jsonDecodeError, 1⟩) ∧
    (ReqValue.noContent ≠ ReqValue.value (.jobj [])) := by
  have hreq := request_loop_success c method api_url params headers file_name file_content
    axapi_args o hfile resp 1 (retryLoop_first_ok c o resp hok)
  refine ⟨?_, ?_, ?_, by intro h; exact ReqValue.noConfusion h⟩
  · intro h204
    rw [hreq]
    simp [h204]
  · intro hb h200
    rw [hreq]
    simp [hb, h200]
  · intro hb h200 h204
    rw [hreq]
    simp [hb, h200, h204]

/-- Witness for C5 at a concrete client and oracle: a 204 response with a
non-JSON body yields the no-content sentinel after one attempt. -/
theorem c5_response_normalization_witness :
    ((none : Option String).isSome = (none : Option String).isSome) ∧
    (204 : Nat) = 204 ∧
    demoClient.request "GET" "/axapi/v3/slb" [] none none none none
      (fun _ => .ok ⟨204, none⟩) = ⟨.ok .noContent, 1⟩ :=
  ⟨rfl, rfl,
    (c5_response_normalization demoClient "GET" "/axapi/v3/slb" [] none none none none
      (fun _ => .ok ⟨204, none⟩) ⟨204, none⟩ rfl rfl).1 rfl⟩

/-- Counterexample for C5 as stated: 204 is a status other than 200, and the
response body is not JSON, yet the request does not raise the JSON-decode
error there — the 204 check fires first and yields the no-content
sentinel. -/
theorem c5_counterexample :
    (204 : Nat) ≠ 200 ∧
    demoClient.request "GET" "/axapi/v3/slb" [] none none none none
        (fun _ => .ok ⟨204, none⟩) = ⟨.ok .noContent, 1⟩ ∧
    (demoClient.request "GET" "/axapi/v3/slb" [] none none none none
        (fun _ => .ok ⟨204, none⟩)).result ≠ .error .jsonDecodeError := by
  refine ⟨by decide, ?_, ?_⟩
  · exact (c5_response_normalization demoClient "GET" "/axapi/v3/slb" [] none none none none
      (fun _ => .ok ⟨204, none⟩) ⟨204, none⟩ rfl rfl).1 rfl
  · rw [(c5_response_normalization demoClient "GET" "/axapi/v3/slb" [] none none none none
      (fun _ => .ok ⟨204, none⟩) ⟨204, none⟩ rfl rfl).1 rfl]
    intro h
    exact Except.noConfusion h

/-- C6: a completed request whose decoded JSON body carries a nested
`response.status` field equal to `fail` raises the structured API error
carrying the request method and path. -/
theorem c6_fail_status_raises (c : HttpClient) (method api_url : String)
    (params : PyDict) (headers : Option PyDict) (file_name file_content : Option String)
    (axapi_args : Option PyDict) (o : Nat → AttemptResult)
    (resp : HttpResponse) (r rr : JVal)
    (hfile : file_name.isSome = file_content.isSome) (hok : o 0 = .ok resp)
    (h204 : resp.status_code ≠ 204) (hbody : resp.body = some r)
    (hrr : r.lookup "response" = some rr)
    (hst : rr.lookup "status" = some (.jstr "fail")) :
    c.request method api_url params headers file_name file_content axapi_args o =
      ⟨.error (.apiError r method api_url), 1⟩ := by
  rw [request_loop_success c method api_url params headers file_name file_content
    axapi_args o hfile resp 1 (retryLoop_first_ok c o resp hok)]
  simp only [hbody, h204, beq_iff_eq, if_neg h204]
  unfold inspectBody
  simp [JVal.hasKey, hrr, hst, JVal.isStr]

/-- Body of a failing API response, used to instantiate C6. -/
def demoFailBody : JVal :=
  .jobj [("response", .jobj [("status", .jstr "fail"),
                             ("err", .jobj [("msg", .jstr "x")])])]

/-- Witness for C6 at a concrete client and oracle: a 200 response whose body
reports `status: fail` raises the API error carrying method and path. -/
theorem c6_fail_status_witness :
    ((none : Option String).isSome = (none : Option String).isSome) ∧
    (200 : Nat) ≠ 204 ∧
    demoFailBody.lookup "response" =
      some (.jobj [("status", .jstr "fail"), ("err", .jobj [("msg", .jstr "x")])]) ∧
    demoClient.request "POST" "/axapi/v3/slb" [] none none none none
        (fun _ => .ok ⟨200, some demoFailBody⟩) =
      ⟨.error (.apiError demoFailBody "POST" "/axapi/v3/slb"), 1⟩ := by
  refine ⟨rfl, by decide, rfl, ?_⟩
  exact c6_fail_status_raises demoClient "POST" "/axapi/v3/slb" [] none none none none
    (fun _ => .ok ⟨200, some demoFailBody⟩) ⟨200, some demoFailBody⟩ demoFailBody
    (.jobj [("status", .jstr "fail"), ("err", .jobj [("msg", .jstr "x")])])
    rfl rfl (by decide) rfl rfl rfl

/-- The retry loop itself never raises the file-argument validation error. -/
theorem retryLoop_never_invalid (c : HttpClient) (o : Nat → AttemptResult) :
    ∀ (fuel i : Nat) (err : ReqError) (n : Nat) (msg : String),
      retryLoop c o i fuel = .raised err n → err ≠ .invalidArgument msg := by
  intro fuel
  induction fuel with
  | zero =>
    intro i err n msg h
    unfold retryLoop at h
    cases ho : o i <;> rw [ho] at h <;> cases h <;> intro hc <;> exact ReqError.noConfusion hc
  | succ f ih =>
    intro i err n msg h
    rw [retryLoop_step] at h
    cases ho : o i with
    | ok resp => simp only [ho] at h; cases h
    | connErr e =>
      simp only [ho] at h
      by_cases hr : c.retryableErr e
      · rw [if_pos hr] at h
        exact ih (i + 1) err n msg h
      · rw [if_neg hr] at h
        cases h
        intro hc
        exact ReqError.noConfusion hc
    | otherErr m =>
      simp only [ho] at h
      cases h
      intro hc
      exact ReqError.noConfusion hc

/-- C7: a request in which exactly one of file name and file content is
present raises the invalid-argument error with zero attempts issued (no
network call); when both are present or both absent this validation passes
and the invalid-argument error is never the outcome. -/
theorem c7_file_validation (c : HttpClient) (method api_url : String)
    (params : PyDict) (headers : Option PyDict) (axapi_args : Option PyDict)
    (file_name file_content : Option String) (o : Nat → AttemptResult) :
    (file_name.isSome ≠ file_content.isSome →
      c.request method api_url params headers file_name file_content axapi_args o =
        ⟨.error (.invalidArgument
          "file_name and file_content must both be populated if one is"), 0⟩) ∧
    (file_name.isSome = file_content.isSome →
      ∀ msg, (c.request method api_url params headers file_name file_content
        axapi_args o).result ≠ .error (.invalidArgument msg)) := by
  constructor
  · intro hne
    unfold HttpClient.request
    cases file_name <;> cases file_content <;> simp_all
  · intro heq msg
    cases hl : retryLoop c o 0 1499 with
    | raised err n =>
      rw [request_loop_raised c method api_url params headers file_name file_content
        axapi_args o heq err n hl]
      intro hc
      injection hc with hc
      exact absurd hc (retryLoop_never_invalid c o 1499 0 err n msg hl)
    | success resp n =>
      rw [request_loop_success c method api_url params headers file_name file_content
        axapi_args o heq resp n hl]
      intro hc
      simp only [] at hc
      split at hc
      · exact Except.noConfusion hc
      · split at hc
        · split at hc
          · exact Except.noConfusion hc
          · injection hc with hc
            exact ReqError.noConfusion hc
        · unfold inspectBody at hc
          split at hc
          · injection hc with hc
            exact ReqError.noConfusion hc
          · split at hc
            · injection hc with hc
              exact ReqError.noConfusion hc
            · exact Except.noConfusion hc

/-- Witness for C7 at a concrete client: a file name without file content is
rejected with the invalid-argument error and zero attempts. -/
theorem c7_file_validation_witness :
    (some "blob.bin" : Option String).isSome ≠ (none : Option String).isSome ∧
    demoClient.request "POST" "/axapi/v3/file" [] none (some "blob.bin") none none
        demoOkOracle =
      ⟨.error (.invalidArgument
        "file_name and file_content must both be populated if one is"), 0⟩ := by
  refine ⟨by decide, ?_⟩
  exact (c7_file_validation demoClient "POST" "/axapi/v3/file" [] none none
    (some "blob.bin") none demoOkOracle).1 (by decide)

/-- C9: whatever retry errno list the client is constructed with, the marker
list contains the literal `BadStatusLine`, so a connection error whose
string form contains that marker is always classified retryable. -/
theorem c9_badstatusline_always_retryable (host : String) (port : Option Nat)
    (protocol : String) (retry_errno_list : Option (List Int)) (e : ConnErr)
    (hmsg : strContains e.msg "BadStatusLine" = true) :
    "BadStatusLine" ∈ (mkHttpClient host port protocol retry_errno_list).retry_err_strings ∧
    (mkHttpClient host port protocol retry_errno_list).retryableErr e = true := by
  have hmem : "BadStatusLine"
      ∈ (mkHttpClient host port protocol retry_errno_list).retry_err_strings := by
    unfold mkHttpClient
    simp
  refine ⟨hmem, ?_⟩
  unfold HttpClient.retryableErr
  rw [Bool.or_eq_true, List.any_eq_true]
  exact Or.inr ⟨"BadStatusLine", hmem, hmsg⟩

/-- Witness for C9 at a concrete construction (no errno list configured) and
a concrete error whose text is the bad-status-line signature. -/
theorem c9_badstatusline_witness :
    strContains "BadStatusLine" "BadStatusLine" = true ∧
    ("BadStatusLine" ∈ (mkHttpClient "host" none "https" none).retry_err_strings ∧
      (mkHttpClient "host" none "https" none).retryableErr ⟨none, "BadStatusLine"⟩ = true) :=
  ⟨by decide, c9_badstatusline_always_retryable "host" none "https" none
    ⟨none, "BadStatusLine"⟩ (by decide)⟩

/-- `Session.authPost` always issues exactly one auth POST. -/
theorem authPost_nauth (o : AuthOracle) (st : SessionState) (k : SessCtrs) :
    (Session.authPost o st k).2.2.nauth = k.nauth + 1 := by
  unfold Session.authPost
  cases hp : o.post k.nauth with
  | error e => simp [hp]
  | ok r =>
    simp only [hp]
    cases hl : r.lookup "authresponse" with
    | none => simp [hl]
    | some ar =>
      simp only [hl]
      cases hs : ar.lookup "signature" with
      | none => simp [hs]
      | some sig => simp [hs]

/-- Reading `id` on a session with no cached token issues exactly one auth
POST. -/
theorem id_fresh_nauth (o : AuthOracle) (st : SessionState) (k : SessCtrs)
    (h : st.session_id = none) :
    (Session.id o st k).2.2.nauth = k.nauth + 1 := by
  obtain ⟨sid⟩ := st
  cases h
  have hn := authPost_nauth o ⟨none⟩ k
  rcases happ : Session.authPost o ⟨none⟩ k with ⟨res, st', k'⟩
  rw [happ] at hn
  simp only [Session.id, Session.authenticate, happ]
  cases res <;> exact hn

/-- C3: `close` always leaves the session without a cached token — also when
the logoff POST raises — and a subsequent `id` read on the closed session
issues a fresh auth POST. -/
theorem c3_close_clears_token (o : AuthOracle) (st : SessionState) (k : SessCtrs) :
    (Session.close o st k).2.1.session_id = none ∧
    (Session.id o (Session.close o st k).2.1 (Session.close o st k).2.2).2.2.nauth
      = (Session.close o st k).2.2.nauth + 1 := by
  have hclear : (Session.close o st k).2.1.session_id = none := by
    unfold Session.close
    cases h : st.session_id with
    | none => simp [h]
    | some sid => cases o.logoff k.nlogoff <;> rfl
  exact ⟨hclear, id_fresh_nauth o _ _ hclear⟩

/-- An oracle whose auth responses never carry `authresponse`. -/
def softFailOracle : AuthOracle :=
  ⟨fun _ => .ok (.jobj []), fun _ => .ok (.jobj [])⟩

/-- Counterexample for C4 as stated: on a fresh session whose first auth
response carries no signature, two `id` reads with no interleaving `close`
issue two auth POSTs, not exactly one. -/
theorem c4_counterexample :
    (Session.id softFailOracle
        (Session.id softFailOracle Session.initState ⟨0, 0⟩).2.1
        (Session.id softFailOracle Session.initState ⟨0, 0⟩).2.2).2.2.nauth = 2 ∧
    (Session.id softFailOracle
        (Session.id softFailOracle Session.initState ⟨0, 0⟩).2.1
        (Session.id softFailOracle Session.initState ⟨0, 0⟩).2.2).2.2.nauth ≠ 1 :=
  ⟨rfl, by decide⟩

/-- C4 (amended): on a fresh session whose first auth response carries an
`authresponse.signature`, the first `id` read issues exactly one auth POST
and caches the token, and the second `id` read returns the same token with
the state and both counters unchanged (no further authenticate call). -/
theorem c4_id_memoizes_token (o : AuthOracle) (r ar sig : JVal)
    (hpost : o.post 0 = .ok r)
    (har : r.lookup "authresponse" = some ar)
    (hsig : ar.lookup "signature" = some sig) :
    Session.id o Session.initState ⟨0, 0⟩
      = (.ok (some (pyStr sig)), ⟨some (pyStr sig)⟩, ⟨1, 0⟩) ∧
    Session.id o (⟨some (pyStr sig)⟩ : SessionState) ⟨1, 0⟩
      = (.ok (some (pyStr sig)), ⟨some (pyStr sig)⟩, ⟨1, 0⟩) := by
  constructor
  · unfold Session.id Session.authenticate Session.authPost Session.initState
    simp [hpost, har, hsig]
  · rfl

/-- Oracle whose auth responses carry a fixed signature. -/
def demoAuthOracle : AuthOracle :=
  ⟨fun _ => .ok (.jobj [("authresponse", .jobj [("signature", .jstr "token123")])]),
   fun _ => .ok (.jobj [("response", .jobj [("status", .jstr "OK")])])⟩

/-- Witness for C4 (amended) at a concrete oracle. -/
theorem c4_id_memoizes_witness :
    demoAuthOracle.post 0
      = .ok (.jobj [("authresponse", .jobj [("signature", .jstr "token123")])]) ∧
    (Session.id demoAuthOracle Session.initState ⟨0, 0⟩
        = (.ok (some "token123"), ⟨some "token123"⟩, ⟨1, 0⟩) ∧
      Session.id demoAuthOracle (⟨some "token123"⟩ : SessionState) ⟨1, 0⟩
        = (.ok (some "token123"), ⟨some "token123"⟩, ⟨1, 0⟩)) :=
  ⟨rfl, c4_id_memoizes_token demoAuthOracle
    (.jobj [("authresponse", .jobj [("signature", .jstr "token123")])])
    (.jobj [("signature", .jstr "token123")]) (.jstr "token123") rfl rfl rfl⟩

/-- C10: when an auth response lacks `authresponse`, the session records no
token and raises nothing; the `id` read returns `None` to the caller after
one auth POST, and a later `id` read issues a fresh auth POST (the soft
failure is not memoized). -/
theorem c10_soft_auth_failure (o : AuthOracle) (r0 r1 : JVal)
    (h0 : o.post 0 = .ok r0) (h0k : r0.lookup "authresponse" = none)
    (h1 : o.post 1 = .ok r1) (h1k : r1.lookup "authresponse" = none) :
    Session.id o Session.initState ⟨0, 0⟩ = (.ok none, ⟨none⟩, ⟨1, 0⟩) ∧
    Session.id o (⟨none⟩ : SessionState) ⟨1, 0⟩ = (.ok none, ⟨none⟩, ⟨2, 0⟩) := by
  constructor
  · unfold Session.id Session.authenticate Session.authPost Session.initState
    simp [h0, h0k]
  · unfold Session.id Session.authenticate Session.authPost
    simp [h1, h1k]

/-- Witness for C10 at the concrete soft-failure oracle. -/
theorem c10_soft_auth_failure_witness :
    softFailOracle.post 0 = .ok (.jobj []) ∧
    (JVal.jobj []).lookup "authresponse" = none ∧
    (Session.id softFailOracle Session.initState ⟨0, 0⟩ = (.ok none, ⟨none⟩, ⟨1, 0⟩) ∧
      Session.id softFailOracle (⟨none⟩ : SessionState) ⟨1, 0⟩
        = (.ok none, ⟨none⟩, ⟨2, 0⟩)) :=
  ⟨rfl, rfl,
    c10_soft_auth_failure softFailOracle (.jobj []) (.jobj []) rfl rfl rfl rfl⟩

/-- Reading below the end of a heap is unaffected by an allocation. -/
theorem heapRead_append (h : Heap) (d : PyDict) (r : Nat) (hr : r < h.length) :
    heapRead (h ++ [d]) r = heapRead h r := by
  unfold heapRead
  rw [List.getElem?_append_left hr]

/-- Reading a reference other than the written one is unaffected by the
write. -/
theorem heapRead_write_ne (h : Heap) (i r : Nat) (d : PyDict) (hne : i ≠ r) :
    heapRead (heapWrite h i d) r = heapRead h r := by
  unfold heapRead heapWrite
  rw [List.getElem?_set_ne hne]

/-- The final (optional) content-type pop mutates only the headers object. -/
theorem writeTail_frame (h1 : Heap) (r wRef : Nat) (file_name : Option String)
    (g : Heap) (d : PyDict) (hgr : heapRead g r = heapRead h1 r) (hne : wRef ≠ r) :
    heapRead (match file_name with
      | some _ => heapWrite g wRef d
      | none => g) r = heapRead h1 r := by
  cases file_name with
  | none => exact hgr
  | some fn => rw [heapRead_write_ne g wRef r d hne]; exact hgr

/-- The optional `params.copy()` allocation and the final pop mutate no
pre-existing dict object. -/
theorem paramsTail_frame (h1 : Heap) (r pRef wRef : Nat) (file_name : Option String)
    (g : Heap) (hgr : heapRead g r = heapRead h1 r) (hglen : r < g.length)
    (hne : wRef ≠ r) :
    heapRead (
      let h4 : Heap :=
        if !(heapRead g pRef).isEmpty then (heapAlloc g (heapRead g pRef)).1 else g
      match file_name with
      | some _ =>
          heapWrite h4 wRef
            (dictPop (dictPop (heapRead h4 wRef) "Content-type") "Content-Type")
      | none => h4) r = heapRead h1 r := by
  cases hp : (heapRead g pRef).isEmpty with
  | true =>
    simp only [hp, Bool.not_true, Bool.false_eq_true, if_false]
    exact writeTail_frame h1 r wRef file_name g _ hgr hne
  | false =>
    simp only [hp, Bool.not_false, if_true, heapAlloc]
    have hread : heapRead (g ++ [heapRead g pRef]) r = heapRead h1 r :=
      (heapRead_append g _ r hglen).trans hgr
    exact writeTail_frame h1 r wRef file_name _ _ hread hne

/-- The optional header overlay, payload copy and content-type pop mutate no
pre-existing dict object. -/
theorem headerTail_frame (h1 : Heap) (r pRef wRef : Nat) (headersRef : Option Nat)
    (file_name : Option String) (g : Heap)
    (hgr : heapRead g r = heapRead h1 r) (hglen : r < g.length) (hne : wRef ≠ r) :
    heapRead (
      let h3 : Heap :=
        match headersRef with
        | some hRef =>
            if !(heapRead g hRef).isEmpty then
              heapWrite g wRef (dictUpdate (heapRead g wRef) (heapRead g hRef))
            else g
        | none => g
      let h4 : Heap :=
        if !(heapRead h3 pRef).isEmpty then (heapAlloc h3 (heapRead h3 pRef)).1 else h3
      match file_name with
      | some _ =>
          heapWrite h4 wRef
            (dictPop (dictPop (heapRead h4 wRef) "Content-type") "Content-Type")
      | none => h4) r = heapRead h1 r := by
  cases headersRef with
  | none => exact paramsTail_frame h1 r pRef wRef file_name g hgr hglen hne
  | some hRef =>
    cases hh : (heapRead g hRef).isEmpty with
    | true =>
      simp only [hh, Bool.not_true, Bool.false_eq_true, if_false]
      exact paramsTail_frame h1 r pRef wRef file_name g hgr hglen hne
    | false =>
      simp only [hh, Bool.not_false, if_true]
      have hwr : heapRead (heapWrite g wRef (dictUpdate (heapRead g wRef) (heapRead g hRef))) r
          = heapRead h1 r := (heapRead_write_ne g wRef r _ hne).trans hgr
      have hwlen : r < (heapWrite g wRef (dictUpdate (heapRead g wRef) (heapRead g hRef))).length := by
        unfold heapWrite
        rw [List.length_set]
        exact hglen
      exact paramsTail_frame h1 r pRef wRef file_name _ hwr hwlen hne

/-- The header and payload operations never touch a dict object that existed
before them. -/
theorem requestHeaderOps_frame (h1 : Heap) (pRef : Nat) (headersRef : Option Nat)
    (file_name : Option String) (r : Nat) (hr : r < h1.length) :
    heapRead (requestHeaderOps h1 pRef headersRef file_name) r = heapRead h1 r := by
  unfold requestHeaderOps
  have hne : h1.length ≠ r := Nat.ne_of_gt hr
  have h2r : heapRead (h1 ++ [HEADERS]) r = heapRead h1 r := heapRead_append h1 HEADERS r hr
  have h2len : r < (h1 ++ [HEADERS]).length := by
    rw [List.length_append]
    exact Nat.lt_of_lt_of_le hr (Nat.le_add_right _ _)
  exact headerTail_frame h1 r pRef h1.length headersRef file_name (h1 ++ [HEADERS])
    h2r h2len hne

/-- C8: the caller-supplied parameter mapping is never mutated by the dict
operations of `request`: whatever the branch taken — axapi merge, failed
file validation, header overlay, payload copy, file upload — the dict
behind the caller reference reads back unchanged. -/
theorem c8_request_no_param_mutation (h0 : Heap) (paramsRef : Nat)
    (headersRef axapiRef : Option Nat) (file_name file_content : Option String)
    (hp : paramsRef < h0.length) :
    heapRead (requestDictOps h0 paramsRef headersRef axapiRef file_name file_content)
        paramsRef
      = heapRead h0 paramsRef := by
  unfold requestDictOps
  cases axapiRef with
  | none =>
    simp only []
    split
    · rfl
    · exact requestHeaderOps_frame h0 paramsRef headersRef file_name paramsRef hp
  | some aRef =>
    simp only [heapAlloc]
    have h1r : heapRead
        (h0 ++ [mergeDicts (heapRead h0 paramsRef) (formatAxapiArgs (heapRead h0 aRef))])
        paramsRef = heapRead h0 paramsRef := heapRead_append _ _ _ hp
    have h1len : paramsRef
        < (h0 ++ [mergeDicts (heapRead h0 paramsRef) (formatAxapiArgs (heapRead h0 aRef))]).length := by
      rw [List.length_append]
      exact Nat.lt_of_lt_of_le hp (Nat.le_add_right _ _)
    split
    · exact h1r
    · exact (requestHeaderOps_frame _ _ headersRef file_name paramsRef h1len).trans h1r

/-- Witness for C8 at a concrete one-object heap. -/
theorem c8_request_no_param_mutation_witness :
    (0 : Nat) < ([[("name", JVal.jstr "s1")]] : Heap).length ∧
    heapRead (requestDictOps [[("name", JVal.jstr "s1")]] 0 none none none none) 0
      = heapRead [[("name", JVal.jstr "s1")]] 0 :=
  ⟨by decide,
    c8_request_no_param_mutation [[("name", .jstr "s1")]] 0 none none none none (by decide)⟩

end Axapi
